import Mathlib

/-!
Verification of the builder script (src/builder.py): a configuration-driven
build/test runner.  The Python source is shallowly embedded below: ordered
Python dicts become association lists iterated in insertion order, Python's
`str.replace` becomes an explicit left-to-right non-overlapping replace on
character lists, and the process-level effects (spawning a shell, exiting on
error) become an explicit trace of executed commands plus an optional fatal
error message.  In-place mutation of a dict argument (Python aliasing) is
modelled by threading the returned map exactly where the Python object flows.
-/

/-- A Python dict of strings, in insertion order. -/
abbrev Dict := List (String × String)

/-- Python dict assignment `d[k] = v`: updates the value in place (keeping the
key's position) when the key exists, otherwise appends the new binding. -/
def dict_set (d : Dict) (k v : String) : Dict :=
  if d.any (fun p => p.1 == k) then d.map (fun p => if p.1 == k then (k, v) else p)
  else d ++ [(k, v)]

/-- Python `{**a, **b}`: `a` overlaid with `b`, `b` winning on collisions. -/
def dict_merge (a b : Dict) : Dict :=
  b.foldl (fun acc kv => dict_set acc kv.1 kv.2) a

/-- One step of Python `str.replace(pat, rep)` on character lists, with fuel.
At each position the pattern is tried; on a hit the replacement is emitted and
scanning resumes after the matched text (non-overlapping, the replacement is
not rescanned), mirroring CPython's semantics for a non-empty pattern. -/
def replace_fuel : Nat → List Char → List Char → List Char → List Char
  | 0, s, _, _ => s
  | _ + 1, [], _, _ => []
  | fuel + 1, c :: rest, pat, rep =>
    if !pat.isEmpty && List.isPrefixOf pat (c :: rest) then
      rep ++ replace_fuel fuel (List.drop pat.length (c :: rest)) pat rep
    else
      c :: replace_fuel fuel rest pat rep

/-- Python `s.replace(pat, rep)` (all occurrences, left to right). The fuel
`s.length` suffices: every recursive call shortens the scanned suffix. -/
def str_replace (s pat rep : String) : String :=
  String.mk (replace_fuel s.data.length s.data pat.data rep.data)

/-- src/builder.py `replace_with_variables`: substitute every user variable
(first, highest precedence) and then every computed variable, in dict order,
each by one literal `str.replace` of `{name}` with its value. -/
def replace_with_variables (value : String) (vars user_variables : Dict) : String :=
  let value := user_variables.foldl
    (fun value p => str_replace value ("\x7b" ++ p.1 ++ "\x7d") p.2) value
  vars.foldl
    (fun value p => str_replace value ("\x7b" ++ p.1 ++ "\x7d") p.2) value

/-- A YAML mapping node as the script reads it: every key optional.  Values
are strings (the script coerces scalars with `str(...)` before use).  The
`vars` field models the node's `variables` key — `variables` is a reserved
word in Lean. -/
structure Node where
  path : Option String
  vars : Option Dict
  environment : Option Dict
  build : Option (List String)
  test : Option (List String)
deriving DecidableEq

/-- src/builder.py `extract_variables`: if the node has a `variables` key,
resolve each declared template against the accumulated map so far (plus user
variables) and store it with dict assignment before moving on; the inherited
dict itself is updated (Python mutates the argument and returns it). -/
def extract_variables (root : Node) (vars user_variables : Dict) : Dict :=
  match root.vars with
  | none => vars
  | some vs =>
    vs.foldl
      (fun vars kv =>
        dict_set vars kv.1 (replace_with_variables kv.2 vars user_variables))
      vars

/-- src/builder.py `extract_environment`: same walk for the `environment` key;
templates resolve against the variable namespace, results go to the
environment dict (again updated in place in Python). -/
def extract_environment (root : Node) (environment vars user_variables : Dict) : Dict :=
  match root.environment with
  | none => environment
  | some es =>
    es.foldl
      (fun environment kv =>
        dict_set environment kv.1 (replace_with_variables kv.2 vars user_variables))
      environment

/-- src/builder.py `banner`: the shell echo framing a step, built from the
title truncated to 110 characters. -/
def banner (text : String) : String :=
  let text := if text.length > 110 then String.mk (text.data.take 110) else text
  let sep := "########" ++ String.mk (text.data.map fun _ => '#')
  "echo -e '\\n" ++ sep ++ "\\n### " ++ text ++ " ###\\n" ++ sep ++ "\\n'"

/-- The truncated title the banner frames (the `text` local of `banner`). -/
def banner_title (text : String) : String :=
  if text.length > 110 then String.mk (text.data.take 110) else text

/-- The `#` separator line of the banner (the `sep` local of `banner`). -/
def banner_sep (text : String) : String :=
  "########" ++ String.mk ((banner_title text).data.map fun _ => '#')

/-- The ambient process context: current working directory, home directory,
the inherited process environment, and the shell — abstracted as the exit
code each submitted command string would return. -/
structure Ctx where
  cwd : String
  home : String
  os_environ : Dict
  exitCode : String → Nat

/-- The CLI flags after argparse (argument parsing is outside the embedding;
`user_variables` stands for the already split `-v key=value` pairs). -/
structure Args where
  no_build : Bool
  test : Bool
  operating_system : String
  build_type : String
  user_variables : Dict

/-- One `subprocess.call`: the command string handed to the shell, the working
directory, and the merged environment it ran under. -/
structure ExecEvent where
  cmd : String
  cwd : String
  env : Dict
deriving DecidableEq

/-- What a phase function (`build`/`test`) leaves behind: the commands it
executed, the fatal error that ended the process (if any), and the variable
and environment dicts it received — updated in place by Python, so returned
here and threaded onward by the caller. -/
structure PhaseOut where
  events : List ExecEvent
  fatal : Option String
  vars : Dict
  environment : Dict
deriving DecidableEq

/-- Python `os.path.expanduser` for the cases the script can produce: a
leading bare `~` is replaced by the home directory (the `~user` form is not
modelled; no pattern here uses it). -/
def expanduser (home path : String) : String :=
  if path = "~" then home
  else if String.mk ['~', '/'] = String.mk (path.data.take 2) then home ++ String.mk (path.data.drop 1)
  else path

/-- Python `re.compile(pattern).match(s)` restricted to patterns without regex
metacharacters — the only patterns this development evaluates concretely.  For
such a pattern the regex engine matches exactly the literal pattern text
anchored at the start, and `match.group()` is that text; no match otherwise. -/
def re_match (pattern s : String) : Option String :=
  if List.isPrefixOf pattern.data s.data then some pattern else none

/-- The text of Python's `str(root)` in the missing-path diagnostic.  No claim
constrains the dict rendering, so it is abstracted to a fixed placeholder. -/
def node_str (_ : Node) : String := "<project spec>"

/-- src/builder.py `get_path`: with a `path` key, substitute variables, expand
`~`, and match the result at the start of the current working directory,
returning the matched text or `none`; without a `path` key, `error(...)` ends
the process (modelled as `Except.error` with the diagnostic). -/
def get_path (ctx : Ctx) (root : Node) (vars user_variables : Dict) :
    Except String (Option String) :=
  match root.path with
  | some p =>
    let path := expanduser ctx.home (replace_with_variables p vars user_variables)
    Except.ok (re_match path ctx.cwd)
  | none => Except.error ("No path in " ++ node_str root)

/-- src/builder.py `execute_command`: run the command string in one shell with
the process environment overlaid by the resolved environment; a non-zero exit
code calls `error(...)`, which prints the failing command and exits. -/
def execute_command (ctx : Ctx) (cmd : String) (cwd : String) (environment : Dict) :
    List ExecEvent × Option String :=
  let env := dict_merge ctx.os_environ environment
  if ctx.exitCode cmd ≠ 0 then
    ([⟨cmd, cwd, env⟩], some ("Execution of \"" ++ cmd ++ "\" failed."))
  else
    ([⟨cmd, cwd, env⟩], none)

/-- The step loop shared verbatim by `build` and `test` in src/builder.py:
substitute variables into each step and emit banner, `&&`, step — with a
further `&&` between consecutive steps. -/
def step_cmds (steps : List String) (vars user_variables : Dict) : List String :=
  steps.foldl
    (fun cmd step =>
      let step := replace_with_variables step vars user_variables
      cmd ++ (if cmd.length > 0 then ["&&"] else []) ++ [banner step, "&&", step])
    []

/-- src/builder.py `build`: skip (before touching anything) when the node has
no `build` key; otherwise re-extract variables and environment on top of the
received dicts and hand the space-joined pipeline to `execute_command`. -/
def build (ctx : Ctx) (proj_root : Node) (path : String)
    (vars environment user_variables : Dict) : PhaseOut :=
  match proj_root.build with
  | none => ⟨[], none, vars, environment⟩
  | some steps =>
    let vars := extract_variables proj_root vars user_variables
    let environment := extract_environment proj_root environment vars user_variables
    let r := execute_command ctx (String.intercalate " " (step_cmds steps vars user_variables))
      path environment
    ⟨r.1, r.2, vars, environment⟩

/-- src/builder.py `test`: identical to `build` with the `test` key. -/
def test (ctx : Ctx) (proj_root : Node) (path : String)
    (vars environment user_variables : Dict) : PhaseOut :=
  match proj_root.test with
  | none => ⟨[], none, vars, environment⟩
  | some steps =>
    let vars := extract_variables proj_root vars user_variables
    let environment := extract_environment proj_root environment vars user_variables
    let r := execute_command ctx (String.intercalate " " (step_cmds steps vars user_variables))
      path environment
    ⟨r.1, r.2, vars, environment⟩

/-- The project loop of src/builder.py `main`.  Per project: extend the
variables dict with the project's own variables (Python mutates the shared
dict, so the extended dict is what later iterations see — modelled by passing
it on in the recursive call), try `get_path`, and skip when the result is
falsy (`None` or the empty string).  On the first match run `build` unless
`--no-build`, then `test` when `--test`, and return; with the list exhausted,
`error("No matching configuration entry found.")`. -/
def mainLoop (ctx : Ctx) (args : Args) :
    List Node → Dict → Dict → Dict → List ExecEvent × Option String
  | [], _, _, _ => ([], some "No matching configuration entry found.")
  | project :: rest, vars, environment, user_variables =>
    let project_vars := extract_variables project vars user_variables
    match get_path ctx project project_vars user_variables with
    | Except.error e => ([], some e)
    | Except.ok none => mainLoop ctx args rest project_vars environment user_variables
    | Except.ok (some path) =>
      if path = "" then mainLoop ctx args rest project_vars environment user_variables
      else
        let b := if args.no_build then (⟨[], none, project_vars, environment⟩ : PhaseOut)
          else build ctx project path project_vars environment user_variables
        match b.fatal with
        | some e => (b.events, some e)
        | none =>
          let t := if args.test then test ctx project path b.vars b.environment user_variables
            else (⟨[], none, b.vars, b.environment⟩ : PhaseOut)
          (b.events ++ t.events, t.fatal)

/-- The YAML configuration: the root node's own `variables`/`environment`
mappings plus the `projects` mapping in declaration order (the project names,
unused by the script beyond iteration, are dropped). -/
structure Config where
  global : Node
  projects : List Node

/-- src/builder.py `main` after argument parsing and YAML loading: seed the
variables with `os` and `bt`, extend with the global node's variables and
environment, and run the project loop. -/
def builder_main (ctx : Ctx) (args : Args) (config : Config) : List ExecEvent × Option String :=
  let user_variables := args.user_variables
  let vars := dict_set (dict_set [] "os" args.operating_system) "bt" args.build_type
  let vars := extract_variables config.global vars user_variables
  let environment := extract_environment config.global [] vars user_variables
  mainLoop ctx args config.projects vars environment user_variables

/-- A replace whose pattern starts with a character the string does not
contain leaves the string unchanged (scan level). -/
theorem replace_fuel_not_mem (c : Char) (pt rep : List Char) :
    ∀ (fuel : Nat) (s : List Char), c ∉ s → replace_fuel fuel s (c :: pt) rep = s := by
  intro fuel
  induction fuel with
  | zero => intro s _; rfl
  | succ n ih =>
    intro s hs
    match s with
    | [] => rfl
    | x :: xs =>
      have hcx : (c == x) = false := by
        refine beq_eq_false_iff_ne.mpr fun h => hs ?_
        rw [h]; exact List.mem_cons_self x xs
      have hxs : c ∉ xs := fun h => hs (List.mem_cons_of_mem x h)
      simp [replace_fuel, List.isPrefixOf, hcx, ih xs hxs]

/-- `str.replace` with a `\x7b...\x7d` pattern is the identity on a string
with no opening brace. -/
theorem str_replace_no_brace (s k rep : String) (h : '\x7b' ∉ s.data) :
    str_replace s ("\x7b" ++ k ++ "\x7d") rep = s := by
  have hdata : ("\x7b" ++ k ++ "\x7d").data = '\x7b' :: (k.data ++ ['\x7d']) := by
    simp [String.data_append]
  show String.mk (replace_fuel s.data.length s.data ("\x7b" ++ k ++ "\x7d").data rep.data) = s
  rw [hdata, replace_fuel_not_mem '\x7b' (k.data ++ ['\x7d']) rep.data s.data.length s.data h]

/-- Folding such replaces over any dict still leaves the string unchanged. -/
theorem foldl_replace_no_brace (d : Dict) (value : String) (h : '\x7b' ∉ value.data) :
    d.foldl (fun value p => str_replace value ("\x7b" ++ p.1 ++ "\x7d") p.2) value = value := by
  induction d with
  | nil => rfl
  | cons p ps ih => simp only [List.foldl]; rw [str_replace_no_brace _ _ _ h]; exact ih

/-- Variable substitution is the identity on a template with no opening
brace, whatever the variable maps. -/
theorem replace_with_variables_no_brace (value : String) (vars user_variables : Dict)
    (h : '\x7b' ∉ value.data) :
    replace_with_variables value vars user_variables = value := by
  show vars.foldl _ (user_variables.foldl _ value) = value
  rw [foldl_replace_no_brace user_variables value h, foldl_replace_no_brace vars value h]

/-- Modelled from the spec: the project loop as the spec describes it
("pure functions over immutable inputs producing new maps"; "all scopes are
ephemeral, rebuilt per project being evaluated").  Identical to `mainLoop`
except that a skipped project's extended variable map is discarded: the next
project is evaluated against the map the loop started with. -/
def mainLoop_spec (ctx : Ctx) (args : Args) :
    List Node → Dict → Dict → Dict → List ExecEvent × Option String
  | [], _, _, _ => ([], some "No matching configuration entry found.")
  | project :: rest, vars, environment, user_variables =>
    let project_vars := extract_variables project vars user_variables
    match get_path ctx project project_vars user_variables with
    | Except.error e => ([], some e)
    | Except.ok none => mainLoop_spec ctx args rest vars environment user_variables
    | Except.ok (some path) =>
      if path = "" then mainLoop_spec ctx args rest vars environment user_variables
      else
        let b := if args.no_build then (⟨[], none, project_vars, environment⟩ : PhaseOut)
          else build ctx project path project_vars environment user_variables
        match b.fatal with
        | some e => (b.events, some e)
        | none =>
          let t := if args.test then test ctx project path b.vars b.environment user_variables
            else (⟨[], none, b.vars, b.environment⟩ : PhaseOut)
          (b.events ++ t.events, t.fatal)

/-- Modelled from the spec: `builder_main` over `mainLoop_spec`. -/
def builder_main_spec (ctx : Ctx) (args : Args) (config : Config) :
    List ExecEvent × Option String :=
  let user_variables := args.user_variables
  let vars := dict_set (dict_set [] "os" args.operating_system) "bt" args.build_type
  let vars := extract_variables config.global vars user_variables
  let environment := extract_environment config.global [] vars user_variables
  mainLoop_spec ctx args config.projects vars environment user_variables

/-- A run context in `/m` where every command exits 0. -/
def ctx_run : Ctx := ⟨"/m", "/h", [], fun _ => 0⟩

/-- A run context in `/m` where every command exits 1. -/
def ctx_fail : Ctx := ⟨"/m", "/h", [], fun _ => 1⟩

/-- A run context whose working directory is `/home/user/proj/sub`. -/
def ctx_sub : Ctx := ⟨"/home/user/proj/sub", "/h", [], fun _ => 0⟩

/-- Default flags: build, no tests, no user variables. -/
def args_build : Args := ⟨false, false, "fedora", "Release", []⟩

/-- Flags with `--test`. -/
def args_buildtest : Args := ⟨false, true, "fedora", "Release", []⟩

/-- A project that declares `x = ONE` but whose path does not match `/m`. -/
def leak_proj1 : Node := ⟨some "/nomatch", some [("x", "ONE")], none, none, none⟩

/-- A project matching `/m` whose build step refers to `x`, which it never
declares. -/
def leak_proj2 : Node := ⟨some "/m", none, none, some ["echo \x7bx\x7d"], none⟩

/-- The two-project configuration exhibiting scope leakage. -/
def leak_config : Config := ⟨⟨none, none, none, none, none⟩, [leak_proj1, leak_proj2]⟩

/-- A project matching `/m` with a `build` key holding an empty step list. -/
def empty_build_proj : Node := ⟨some "/m", none, none, some [], none⟩

/-- C1 counterexample: with computed map `{a: "\x7bb\x7d", b: "X"}` (insertion
order `a` then `b`) and empty user map, resolving `"\x7ba\x7d"` yields `"X"`,
not `"\x7bb\x7d"`: the text substituted for `a` is re-expanded by the later
pass for `b`, refuting the claim's no-re-expansion example. -/
theorem replace_reexpands_later_vars_cex :
    replace_with_variables "\x7ba\x7d" [("a", "\x7bb\x7d"), ("b", "X")] [] = "X" ∧
    replace_with_variables "\x7ba\x7d" [("a", "\x7bb\x7d"), ("b", "X")] [] ≠ "\x7bb\x7d" := by
  exact ⟨by decide, by decide⟩

/-- C1 amended: substitution applies one `str.replace` per variable in dict
iteration order with no fixed-point rescan, so text introduced by one
substitution is expanded by variables processed later but not by variables
already processed: the same map in order `a, b` gives `"X"`, in order `b, a`
gives `"\x7bb\x7d"`. -/
theorem replace_single_pass_per_var :
    replace_with_variables "\x7ba\x7d" [("a", "\x7bb\x7d"), ("b", "X")] [] = "X" ∧
    replace_with_variables "\x7ba\x7d" [("b", "X"), ("a", "\x7bb\x7d")] [] = "\x7bb\x7d" := by
  exact ⟨by decide, by decide⟩

/-- C7: user-supplied variables take precedence over computed variables for a
key used in a template: user `{os: mac}` beats computed `{os: linux}` both for
the bare placeholder and inside a longer command template. -/
theorem user_precedence :
    replace_with_variables "\x7bos\x7d" [("os", "linux")] [("os", "mac")] = "mac" ∧
    replace_with_variables "cmake -DOS=\x7bos\x7d" [("os", "linux")] [("os", "mac")] =
      "cmake -DOS=mac" := by
  exact ⟨by decide, by decide⟩

/-- C2 counterexample: the real run and the spec's pure-rebuild run disagree.
`extract_variables` updates the dict it is handed and `main` reuses that dict
across iterations, so non-matching `leak_proj1`'s variable `x = ONE` is
visible when `leak_proj2` is evaluated: its step `echo \x7bx\x7d` executes as
`echo ONE`, while the spec's rebuilt-per-project scopes would leave
`\x7bx\x7d` unexpanded. -/
theorem scope_leak_cex :
    builder_main ctx_run args_build leak_config =
      ([⟨banner "echo ONE" ++ " && echo ONE", "/m", []⟩], none) ∧
    builder_main_spec ctx_run args_build leak_config =
      ([⟨banner "echo \x7bx\x7d" ++ " && echo \x7bx\x7d", "/m", []⟩], none) ∧
    builder_main ctx_run args_build leak_config ≠
      builder_main_spec ctx_run args_build leak_config := by
  exact ⟨by decide, by decide, by decide⟩

/-- C2 amended: `extract_variables` returns the inherited dict extended in
place, and the orchestrator threads that dict through the project loop, so a
variable declared by an earlier, non-matching project is still in scope for a
later project: here `leak_proj2`'s build step runs with `leak_proj1`'s
`x = ONE` substituted. -/
theorem scope_leak_across_projects :
    builder_main ctx_run args_build leak_config =
      ([⟨banner "echo ONE" ++ " && echo ONE", "/m", []⟩], none) ∧
    extract_variables leak_proj1
        (dict_set (dict_set [] "os" "fedora") "bt" "Release") [] =
      [("os", "fedora"), ("bt", "Release"), ("x", "ONE")] := by
  exact ⟨by decide, by decide⟩

/-- C3: once a project's path pattern matches the working directory with a
non-empty (truthy) match, the run is the same as if no later project existed:
the first match is handled and the loop returns, so projects after it are
never examined. -/
theorem first_match_wins (ctx : Ctx) (args : Args) (proj : Node) (rest : List Node)
    (vars environment user_variables : Dict) (path : String)
    (hpath : get_path ctx proj (extract_variables proj vars user_variables) user_variables =
      Except.ok (some path))
    (hne : path ≠ "") :
    mainLoop ctx args (proj :: rest) vars environment user_variables =
    mainLoop ctx args [proj] vars environment user_variables := by
  simp only [mainLoop, hpath]
  simp [hne]

/-- C3 witness: two projects both match `/m`; the run over both equals the
run over the first alone. -/
theorem first_match_wins_witness :
    mainLoop ctx_run args_build
      [⟨some "/m", none, none, some ["b1"], none⟩, ⟨some "/m", none, none, some ["b2"], none⟩]
      [] [] [] =
    mainLoop ctx_run args_build [⟨some "/m", none, none, some ["b1"], none⟩] [] [] [] :=
  first_match_wins ctx_run args_build ⟨some "/m", none, none, some ["b1"], none⟩
    [⟨some "/m", none, none, some ["b2"], none⟩] [] [] [] "/m" rfl (by decide)

/-- C10: a project whose pattern matches only the empty prefix of the working
directory is skipped exactly like a non-match — Python's `if not path:` treats
the empty matched string as falsy — and the loop moves on to the remaining
projects (with the project's extracted variables still threaded along). -/
theorem empty_prefix_skipped (ctx : Ctx) (args : Args) (proj : Node) (rest : List Node)
    (vars environment user_variables : Dict)
    (hpath : get_path ctx proj (extract_variables proj vars user_variables) user_variables =
      Except.ok (some "")) :
    mainLoop ctx args (proj :: rest) vars environment user_variables =
    mainLoop ctx args rest (extract_variables proj vars user_variables)
      environment user_variables := by
  simp [mainLoop, hpath]

/-- C10 witness: a project with the empty pattern (which the regex engine
matches with an empty group at the start of any directory) is skipped even
though it carries build steps, and the run ends in the no-match error. -/
theorem empty_prefix_skipped_witness :
    mainLoop ctx_run args_build [⟨some "", none, none, some ["x"], none⟩] [] [] [] =
      ([], some "No matching configuration entry found.") :=
  (empty_prefix_skipped ctx_run args_build ⟨some "", none, none, some ["x"], none⟩
    [] [] [] [] rfl).trans rfl

/-- C5: when every project carries a literal path pattern (no `\x7b`
placeholder) that does not match the start of the working directory, the run
executes no command at all and terminates fatally with the no-matching-entry
diagnostic. -/
theorem no_match_fatal (ctx : Ctx) (args : Args) :
    ∀ (projects : List Node) (vars environment user_variables : Dict),
    (∀ proj ∈ projects, ∃ p, proj.path = some p ∧ '\x7b' ∉ p.data ∧
      re_match (expanduser ctx.home p) ctx.cwd = none) →
    mainLoop ctx args projects vars environment user_variables =
      ([], some "No matching configuration entry found.") := by
  intro projects
  induction projects with
  | nil => intro vars environment user_variables _; rfl
  | cons proj rest ih =>
    intro vars environment user_variables h
    obtain ⟨p, hp, hnb, hnm⟩ := h proj (List.mem_cons_self proj rest)
    have hgp : get_path ctx proj (extract_variables proj vars user_variables) user_variables =
        Except.ok none := by
      simp only [get_path, hp]
      rw [replace_with_variables_no_brace p _ _ hnb, hnm]
    simp only [mainLoop, hgp]
    exact ih _ _ _ fun q hq => h q (List.mem_cons_of_mem proj hq)

/-- C5 witness: one project with pattern `/other` in working directory
`/home/user/proj/sub`. -/
theorem no_match_fatal_witness :
    mainLoop ctx_sub args_build [⟨some "/other", none, none, some ["x"], none⟩] [] [] [] =
      ([], some "No matching configuration entry found.") :=
  no_match_fatal ctx_sub args_build [⟨some "/other", none, none, some ["x"], none⟩] [] [] []
    (by
      intro proj hmem
      rw [List.mem_singleton.mp hmem]
      exact ⟨"/other", rfl, by decide, rfl⟩)

/-- C4: when the matched project's assembled build pipeline exits non-zero,
the run ends at once: the trace holds exactly that one shell invocation, the
fatal diagnostic names the failing command, and — although `--test` was
passed — no test command is ever executed. -/
theorem failed_command_fatal (ctx : Ctx) (args : Args) (proj : Node) (rest : List Node)
    (vars environment user_variables : Dict) (steps : List String) (path : String)
    (hnb : args.no_build = false) (_ht : args.test = true)
    (hsteps : proj.build = some steps)
    (hpath : get_path ctx proj (extract_variables proj vars user_variables) user_variables =
      Except.ok (some path))
    (hne : path ≠ "")
    (hfail : ctx.exitCode (String.intercalate " " (step_cmds steps
      (extract_variables proj (extract_variables proj vars user_variables) user_variables)
      user_variables)) ≠ 0) :
    mainLoop ctx args (proj :: rest) vars environment user_variables =
      ([⟨String.intercalate " " (step_cmds steps
           (extract_variables proj (extract_variables proj vars user_variables) user_variables)
           user_variables),
         path,
         dict_merge ctx.os_environ
           (extract_environment proj environment
             (extract_variables proj (extract_variables proj vars user_variables) user_variables)
             user_variables)⟩],
       some ("Execution of \"" ++ String.intercalate " " (step_cmds steps
           (extract_variables proj (extract_variables proj vars user_variables) user_variables)
           user_variables) ++ "\" failed.")) := by
  simp only [mainLoop, hpath, hnb]
  simp only [build, hsteps, execute_command]
  rw [if_neg hne, if_pos hfail]
  simp

/-- C4 witness: a project with one build step and one test step, every shell
command exiting 1, `--test` passed: the run stops after the failed build
pipeline with the diagnostic naming it. -/
theorem failed_command_fatal_witness :
    mainLoop ctx_fail args_buildtest
      [⟨some "/m", none, none, some ["make"], some ["ctest"]⟩] [] [] [] =
      ([⟨String.intercalate " " (step_cmds ["make"]
           (extract_variables ⟨some "/m", none, none, some ["make"], some ["ctest"]⟩
             (extract_variables ⟨some "/m", none, none, some ["make"], some ["ctest"]⟩ [] []) [])
           []),
         "/m",
         dict_merge ctx_fail.os_environ
           (extract_environment ⟨some "/m", none, none, some ["make"], some ["ctest"]⟩ []
             (extract_variables ⟨some "/m", none, none, some ["make"], some ["ctest"]⟩
               (extract_variables ⟨some "/m", none, none, some ["make"], some ["ctest"]⟩ [] []) [])
             [])⟩],
       some ("Execution of \"" ++ String.intercalate " " (step_cmds ["make"]
           (extract_variables ⟨some "/m", none, none, some ["make"], some ["ctest"]⟩
             (extract_variables ⟨some "/m", none, none, some ["make"], some ["ctest"]⟩ [] []) [])
           []) ++ "\" failed.")) :=
  failed_command_fatal ctx_fail args_buildtest
    ⟨some "/m", none, none, some ["make"], some ["ctest"]⟩ [] [] [] [] ["make"] "/m"
    rfl rfl rfl rfl (by decide) (by decide)

/-- C6 counterexample: a project whose `build` key holds an empty step list
still reaches `execute_command` — the joined pipeline is the empty string and
a shell is spawned for it — so the trace is not empty, refuting the claim for
the present-but-empty case. -/
theorem empty_steps_still_execute_cex :
    build ctx_run empty_build_proj "/m" [] [] [] = ⟨[⟨"", "/m", []⟩], none, [], []⟩ ∧
    (build ctx_run empty_build_proj "/m" [] [] []).events ≠ [] := by
  exact ⟨by decide, by decide⟩

/-- C6 amended: a phase whose key is absent is skipped before anything runs —
no extraction, no banner, no shell, no possible failure; but when the key is
present with an empty list the caller is not skipped: `execute_command` is
invoked with the empty pipeline string (no banner inside it). -/
theorem phase_skip_semantics :
    (∀ (ctx : Ctx) (proj : Node) (path : String) (vars environment user_variables : Dict),
      proj.build = none →
      build ctx proj path vars environment user_variables =
        ⟨[], none, vars, environment⟩) ∧
    (∀ (ctx : Ctx) (proj : Node) (path : String) (vars environment user_variables : Dict),
      proj.test = none →
      test ctx proj path vars environment user_variables =
        ⟨[], none, vars, environment⟩) ∧
    build ctx_run empty_build_proj "/m" [] [] [] = ⟨[⟨"", "/m", []⟩], none, [], []⟩ := by
  refine ⟨?_, ?_, by decide⟩
  · intro ctx proj path vars environment user_variables h
    simp [build, h]
  · intro ctx proj path vars environment user_variables h
    simp [test, h]

/-- C8: `get_path` raises the fatal configuration error exactly when the node
has no `path` key; with a key it substitutes variables into the pattern and
matches it anchored at the start of the working directory, returning the
matched prefix (`/home/user/proj` against `/home/user/proj/sub`, also through
the placeholder `\x7bu\x7d`) or no match (`/other`). -/
theorem get_path_contract :
    (∀ (ctx : Ctx) (root : Node) (vars user_variables : Dict),
      root.path = none ↔ ∃ e, get_path ctx root vars user_variables = Except.error e) ∧
    get_path ctx_sub ⟨some "/home/user/proj", none, none, none, none⟩ [] [] =
      Except.ok (some "/home/user/proj") ∧
    get_path ctx_sub ⟨some "/other", none, none, none, none⟩ [] [] = Except.ok none ∧
    get_path ctx_sub ⟨some "/home/\x7bu\x7d/proj", none, none, none, none⟩ [("u", "user")] [] =
      Except.ok (some "/home/user/proj") := by
  refine ⟨?_, rfl, rfl, rfl⟩
  intro ctx root vars user_variables
  constructor
  · intro h
    simp [get_path, h]
  · intro ⟨e, he⟩
    cases hp : root.path with
    | none => rfl
    | some p => simp [get_path, hp] at he

/-- C9: the banner before a step is a single shell echo whose expansion is a
blank line, a `#` line of length `8 + len(title)` for the title truncated to
its first 110 characters, the line `### title ###`, the same `#` line, and a
trailing blank line. -/
theorem banner_contract (title : String) :
    banner title =
      "echo -e '\\n" ++ banner_sep title ++ "\\n### " ++ banner_title title ++ " ###\\n" ++
        banner_sep title ++ "\\n'" ∧
    (banner_sep title).length = 8 + (banner_title title).length ∧
    (∀ c ∈ (banner_sep title).data, c = '#') ∧
    banner_title title = String.mk (title.data.take 110) := by
  refine ⟨rfl, ?_, ?_, ?_⟩
  · show ("########" ++ String.mk ((banner_title title).data.map fun _ => '#')).length = _
    have hmk : (String.mk ((banner_title title).data.map fun _ => '#')).length =
        (banner_title title).length := by
      show ((banner_title title).data.map fun _ => '#').length = _
      rw [List.length_map]
      rfl
    rw [String.length_append, hmk]
    rfl
  · intro c hc
    rw [banner_sep, String.data_append] at hc
    rcases List.mem_append.mp hc with h | h
    · rw [show ("########" : String).data = List.replicate 8 '#' from rfl] at h
      exact List.eq_of_mem_replicate h
    · obtain ⟨a, _, rfl⟩ := List.mem_map.mp h
      rfl
  · rw [banner_title]
    split
    · rfl
    · next h =>
      rw [List.take_of_length_le (Nat.le_of_not_lt fun hlt => h hlt)]
